import Mathlib

/-!
Shallow embedding of `app/main.py` (a FastAPI diagnostic/health-check
service) and proofs about it.

The effectful parts of the program (HTTP calls made with `httpx`, socket
lookups, clock reads) are modelled by explicit "world" records that supply
the outcome of each external interaction; each Python function becomes a
total Lean function of the request and the world.
-/

namespace Probe

/-- Python's `str.strip()` with no argument: remove whitespace from both
ends of the string.  (Executable model; Lean's own `String.trim` is not
kernel-reducible, so the char-list form is used.) -/
def pyStrip (s : String) : String :=
  ⟨((s.data.dropWhile Char.isWhitespace).reverse.dropWhile Char.isWhitespace).reverse⟩

/-- Python's `x or y` where `x : Optional[str]` and `y : str`: `None` and
the empty string are falsy, so both fall through to `y`. -/
def pyOrS : Option String → String → String
  | some s, d => if s = "" then d else s
  | none, d => d

/-- Python's `x or y` where both operands are `Optional[str]`. -/
def pyOrO : Option String → Option String → Option String
  | some s, d => if s = "" then d else some s
  | none, d => d

/-- Outcome of one outbound HTTP call made with `httpx`:
either an HTTP response arrived (status code and body text), or the call
raised `httpx.HTTPError` (network error, timeout, connection refused, DNS
failure — the exception class the code catches at line 25), or it raised
some exception that is not an `httpx.HTTPError`. -/
inductive HttpOutcome where
  | response (status : Nat) (body : String)
  | httpError
  | otherError
deriving DecidableEq

/-- The environment one call of `imds_get` runs in: the outcome of the
token PUT (`client.put(IMDS_TOKEN_URL, ...)`, line 22) and the outcome of
the metadata GET (line 29) as a function of the token header the code
attaches to it.  `tokenOutcome = .otherError` stands for any exception up
to and including the token call that is not an `httpx.HTTPError` (those
are not caught by the inner `except httpx.HTTPError` at line 25 and fly
to the outer `except Exception`). -/
structure ImdsWorld where
  tokenOutcome : HttpOutcome
  getOutcome : Option String → HttpOutcome

/-- What one call of `imds_get` did: its return value, whether the
metadata GET of line 29 was actually issued, and the
`X-aws-ec2-metadata-token` header value it carried (none = no header,
the `headers = {} ` branch of line 28). -/
structure ImdsTrace where
  result : Option String
  getIssued : Bool
  tokenHeader : Option String
deriving DecidableEq

/-- Lines 29–34 of `imds_get`: issue the GET with the given token header;
status 200 returns `r2.text.strip()`, any other status falls through to
`return None`, and any exception is swallowed by the outer
`except Exception` (line 32), also returning `None`. -/
def imdsGetStep (w : ImdsWorld) (hdr : Option String) : ImdsTrace :=
  match w.getOutcome hdr with
  | .response s b => if s = 200 then ⟨some (pyStrip b), true, hdr⟩ else ⟨none, true, hdr⟩
  | .httpError => ⟨none, true, hdr⟩
  | .otherError => ⟨none, true, hdr⟩

/-- Lines 20–28 of `imds_get`: the token header the GET will carry.
A 200 token response sets `tok = r.text.strip()` (line 24), any other
status leaves `tok = None`, and a caught `httpx.HTTPError` does too
(lines 25–26); line 28 then attaches the header only when `tok` is
truthy, so an empty (stripped) token string sends no header. -/
def imdsTokenHeader : HttpOutcome → Option String
  | .response s b =>
      if s = 200 then (if pyStrip b = "" then none else some (pyStrip b)) else none
  | _ => none

/-- `imds_get` (lines 14–34).  An exception of the token step that is not
an `httpx.HTTPError` escapes the inner handler and is caught by the outer
`except Exception` (line 32): the function returns `None` without ever
issuing the metadata GET.  In every other case the GET of line 29 is
issued, with the header `imdsTokenHeader` computed. -/
def imds_get (w : ImdsWorld) : ImdsTrace :=
  if w.tokenOutcome = .otherError then ⟨none, false, none⟩
  else imdsGetStep w (imdsTokenHeader w.tokenOutcome)

/-- The outcome of the metadata GET as the code observed it: `none` when
the GET was never issued. -/
def observedGet (w : ImdsWorld) : Option HttpOutcome :=
  if (imds_get w).getIssued then some (w.getOutcome (imds_get w).tokenHeader) else none

/-- The spec's description of `imds_get`'s return value, written from the
spec's words ("If the GET returns status 200, return the trimmed response
body as the result. Otherwise, or on any exception, return absence"):
a second definition for the refinement comparison, not from the code. -/
def imdsSpecResult (w : ImdsWorld) : Option String :=
  match observedGet w with
  | some (.response s b) => if s = 200 then some (pyStrip b) else none
  | _ => none

/-- The environment of one call of `get_private_ip_fallback` (lines
36–41): the result of `socket.gethostbyname(socket.gethostname())`, or
`none` when that raises. -/
structure SocketWorld where
  gethostbynameResult : Option String
deriving DecidableEq

/-- `get_private_ip_fallback`: resolve the local host name; on any
exception return the fixed placeholder `"desconhecido"`. -/
def get_private_ip_fallback (w : SocketWorld) : String :=
  match w.gethostbynameResult with
  | some ip => ip
  | none => "desconhecido"

/-- One inbound HTTP request as the handler sees it through Starlette:
the method, the header multidict (keys already lower-cased, as
`request.headers.get` is case-insensitive), the host and scheme of
`request.url`, the path, and `request.client.host` (`none` models
`request.client is None`, which line 70 guards against). -/
structure RequestModel where
  method : String
  headers : List (String × String)
  urlHostname : String
  urlScheme : String
  urlPath : String
  clientHost : Option String
deriving DecidableEq

/-- `request.headers.get(k)`: the first header named `k`, if any. -/
def headerGet (req : RequestModel) (k : String) : Option String :=
  (req.headers.find? (fun p => p.1 == k)).map (fun p => p.2)

/-- Python's `round`, ties to even, restricted to an integer result:
`roundHalfEven q` is the integer nearest to `q`, with a tie going to the
even neighbour. -/
def roundHalfEven (q : ℚ) : ℤ :=
  let f : ℤ := Rat.floor q
  let r : ℚ := q - (f : ℚ)
  if r < 1/2 then f
  else if 1/2 < r then f + 1
  else if Even f then f else f + 1

/-- Python's `round(x, 2)`: round to a multiple of `1/100`, ties to even. -/
def round2 (q : ℚ) : ℚ := (roundHalfEven (q * 100) : ℚ) / 100

/-- The `"acesso"` sub-object of the payload (lines 65–71). -/
structure Acesso where
  dns_usado : String
  esquema : String
  metodo : String
  path : String
  ip_cliente : Option String
deriving DecidableEq

/-- The `"instancia"` sub-object of the payload (lines 72–77). -/
structure Instancia where
  ip_publico_vm : String
  ip_privado_vm : String
  instance_id : String
  availability_zone : String
deriving DecidableEq

/-- The payload dict of lines 62–82, field by field. -/
structure Payload where
  ok : Bool
  mensagem : String
  acesso : Acesso
  instancia : Instancia
  ping_ms : ℚ
  server_time_utc : String
  server_time_brt : String
  version : String
deriving DecidableEq

/-- Everything outside the process that one call of the root handler
observes: one `ImdsWorld` per `imds_get` call (lines 55–58), the socket
world of the fallback resolver, the two `time.perf_counter()` readings
(`t0` at line 49, `t1` inside line 60; `perf_counter` is monotonic, so a
caller may assume `t0 ≤ t1`), and the rendered outputs of the two
`datetime.utcnow()` calls of lines 79–80 (`utcIso` is
`utcnow().isoformat()`, `brtStr` the `strftime` result of line 80). -/
structure RootWorld where
  publicIp : ImdsWorld
  localIp : ImdsWorld
  instanceId : ImdsWorld
  az : ImdsWorld
  sock : SocketWorld
  t0 : ℚ
  t1 : ℚ
  utcIso : String
  brtStr : String

/-- The root handler's payload (lines 48–82).  Line 51:
`headers.get("x-forwarded-host") or headers.get("host") or
request.url.hostname`; line 52: `headers.get("x-forwarded-proto") or
request.url.scheme`; lines 55–58 the four metadata fetches, with the
local-IPv4 result falling back to `get_private_ip_fallback()` when falsy;
line 60 the rounded elapsed milliseconds; lines 62–82 the dict itself,
combining each instancia field with its placeholder via `or`. -/
def rootPayload (req : RequestModel) (w : RootWorld) : Payload :=
  let host := pyOrS (headerGet req "x-forwarded-host")
      (pyOrS (headerGet req "host") req.urlHostname)
  let scheme := pyOrS (headerGet req "x-forwarded-proto") req.urlScheme
  let public_ip := (imds_get w.publicIp).result
  let private_ip := pyOrS (imds_get w.localIp).result (get_private_ip_fallback w.sock)
  let instance_id := (imds_get w.instanceId).result
  let az := (imds_get w.az).result
  { ok := true
    mensagem := "Teste de Load Balancing da AWS — FastAPI em execução."
    acesso :=
      { dns_usado := host
        esquema := scheme
        metodo := req.method
        path := req.urlPath
        ip_cliente := pyOrO (headerGet req "x-forwarded-for") req.clientHost }
    instancia :=
      { ip_publico_vm := pyOrS public_ip "indisponivel"
        ip_privado_vm := private_ip
        instance_id := pyOrS instance_id "desconhecido"
        availability_zone := pyOrS az "desconhecida" }
    ping_ms := round2 ((w.t1 - w.t0) * 1000)
    server_time_utc := w.utcIso ++ "Z"
    server_time_brt := w.brtStr
    version := "1.0.0" }

/-- JSON values, as `JSONResponse` serialises the payload dict. -/
inductive JVal where
  | jstr (s : String)
  | jnum (q : ℚ)
  | jbool (b : Bool)
  | jnull
  | jobj (fields : List (String × JVal))

/-- `None` serialises to JSON `null`, a string to a JSON string. -/
def optJson : Option String → JVal
  | some s => .jstr s
  | none => .jnull

/-- The JSON object `JSONResponse(payload)` sends: the dict literal of
lines 62–82, keys in source order.  Every key is always present —
`ip_cliente = None` becomes the key with value `null`, not a missing
key. -/
def payloadJson (p : Payload) : JVal :=
  .jobj
    [("ok", .jbool p.ok),
     ("mensagem", .jstr p.mensagem),
     ("acesso", .jobj
        [("dns_usado", .jstr p.acesso.dns_usado),
         ("esquema", .jstr p.acesso.esquema),
         ("metodo", .jstr p.acesso.metodo),
         ("path", .jstr p.acesso.path),
         ("ip_cliente", optJson p.acesso.ip_cliente)]),
     ("instancia", .jobj
        [("ip_publico_vm", .jstr p.instancia.ip_publico_vm),
         ("ip_privado_vm", .jstr p.instancia.ip_privado_vm),
         ("instance_id", .jstr p.instancia.instance_id),
         ("availability_zone", .jstr p.instancia.availability_zone)]),
     ("ping_ms", .jnum p.ping_ms),
     ("server_time_utc", .jstr p.server_time_utc),
     ("server_time_brt", .jstr p.server_time_brt),
     ("version", .jstr p.version)]

/-- Field lookup in a JSON object: `some v` exactly when the key is
present (with `v` possibly `null`). -/
def jLookup (v : JVal) (k : String) : Option JVal :=
  match v with
  | .jobj l => (l.find? (fun p => p.1 == k)).map (fun p => p.2)
  | _ => none

/-- Two-level lookup: the field `k2` of the sub-object `k1`. -/
def jLookup2 (v : JVal) (k1 k2 : String) : Option JVal :=
  (jLookup v k1).bind (fun a => jLookup a k2)

/-- `string | null`, the documented type of `ip_cliente`. -/
def strOrNull : JVal → Bool
  | .jstr _ => true
  | .jnull => true
  | _ => false

/-- §6's schema for the `"acesso"` sub-object: exactly these keys in this
order, all strings, `ip_cliente` a string or `null`. -/
def acessoCheck : JVal → Bool
  | .jobj [("dns_usado", .jstr _), ("esquema", .jstr _), ("metodo", .jstr _),
           ("path", .jstr _), ("ip_cliente", c)] => strOrNull c
  | _ => false

/-- §6's schema for the `"instancia"` sub-object: exactly these keys,
all strings. -/
def instanciaCheck : JVal → Bool
  | .jobj [("ip_publico_vm", .jstr _), ("ip_privado_vm", .jstr _),
           ("instance_id", .jstr _), ("availability_zone", .jstr _)] => true
  | _ => false

/-- §6's JSON response schema for the root endpoint: exactly the
documented top-level keys with the documented types. -/
def schemaCheck : JVal → Bool
  | .jobj [("ok", .jbool _), ("mensagem", .jstr _), ("acesso", a),
           ("instancia", i), ("ping_ms", .jnum _), ("server_time_utc", .jstr _),
           ("server_time_brt", .jstr _), ("version", .jstr _)] =>
      acessoCheck a && instanciaCheck i
  | _ => false

/-- A response at the transport level: status code and body. -/
inductive Body where
  | text (s : String)
  | json (v : JVal)

/-- The application's routing surface.  `@app.get("/healthz")` (line 43)
and `@app.get("/")` (line 47) register each path through FastAPI's
`APIRoute` with `methods = {"GET"}` exactly — unlike a plain Starlette
`Route`, `APIRoute` does not add HEAD, so every non-GET method (HEAD
included) on a matching path receives FastAPI's `405 Method Not
Allowed`, rendered as the JSON object `{"detail": "Method Not Allowed"}`
(an unknown path gets the analogous 404).  The handlers themselves
return unconditionally: `PlainTextResponse("ok", status_code=200)` for
`/healthz` and `JSONResponse(payload)` (default status 200) for `/`.
(FastAPI's auto-generated documentation routes are not modelled; no
theorem below touches any other path.) -/
def serve (req : RequestModel) (w : RootWorld) : Nat × Body :=
  if req.urlPath = "/healthz" then
    if req.method = "GET" then (200, .text "ok")
    else (405, .json (.jobj [("detail", .jstr "Method Not Allowed")]))
  else if req.urlPath = "/" then
    if req.method = "GET" then (200, .json (payloadJson (rootPayload req w)))
    else (405, .json (.jobj [("detail", .jstr "Method Not Allowed")]))
  else (404, .json (.jobj [("detail", .jstr "Not Found")]))

/-- Line 80, `dt.datetime.utcnow().astimezone(dt.timezone(dt.timedelta(hours=-3)))`,
as arithmetic on wall-clock minutes.  `utcnow()` is a *naive* datetime
whose wall-clock reading `u` equals true UTC; `astimezone` on a naive
datetime interprets it in the host's local offset (`hostOffset` minutes
east of UTC), so the instant it denotes is `u - hostOffset` UTC, and the
UTC−3 wall clock shows that instant as `(u - hostOffset) - 180`. -/
def server_time_brt_wall (u hostOffset : Int) : Int := (u - hostOffset) - 180

/-- Modelled from the spec: "the same instant as server_time_utc shifted
by a literal fixed offset of minus 3 hours from UTC", independent of the
host timezone — the intended wall-clock minutes of `server_time_brt`. -/
def server_time_brt_spec (u : Int) : Int := u - 180

/-! ### Concrete fixtures used by witnesses and counterexamples -/

/-- A metadata service that is entirely unreachable: both calls raise
`httpx.HTTPError` (e.g. a connect timeout outside AWS). -/
def wFail : ImdsWorld := ⟨.httpError, fun _ => .httpError⟩

/-- Token call fails as `httpx.HTTPError`; the GET answers 200 with a
body that strips to the empty string. -/
def wEmpty : ImdsWorld := ⟨.httpError, fun _ => .response 200 "  "⟩

/-- The token step raises an exception that is *not* an
`httpx.HTTPError`, while the metadata GET would have answered 200. -/
def wTokenCrash : ImdsWorld := ⟨.otherError, fun _ => .response 200 "10.0.0.5"⟩

/-- A metadata service answering every GET with 200 and a payload. -/
def wOkImds : ImdsWorld := ⟨.response 200 "tok-1", fun _ => .response 200 " 203.0.113.77\n"⟩

/-- A root-handler environment with the metadata service unreachable. -/
def w0 : RootWorld :=
  ⟨wFail, wFail, wFail, wFail, ⟨some "10.0.0.2"⟩, 0, 0,
   "2026-10-12T00:00:00", "11/10/2026 09:00:00 PM UTC-3"⟩

/-- A root-handler environment where every metadata GET answers 200 with
a whitespace-only body. -/
def wE : RootWorld :=
  ⟨wEmpty, wEmpty, wEmpty, wEmpty, ⟨some "10.0.0.2"⟩, 0, 0,
   "2026-10-12T00:00:00", "11/10/2026 09:00:00 PM UTC-3"⟩

/-- GET request to the root path, plain Host header, a connected peer. -/
def reqGetRoot : RequestModel :=
  ⟨"GET", [("host", "example.com")], "example.com", "http", "/", some "203.0.113.9"⟩

/-- POST request to the root path. -/
def reqPostRoot : RequestModel :=
  ⟨"POST", [("host", "example.com")], "example.com", "http", "/", some "203.0.113.9"⟩

/-- GET request to the liveness path. -/
def reqGetHealthz : RequestModel :=
  ⟨"GET", [("host", "example.com")], "example.com", "http", "/healthz", some "203.0.113.9"⟩

/-- POST request to the liveness path. -/
def reqPostHealthz : RequestModel :=
  ⟨"POST", [("host", "example.com")], "example.com", "http", "/healthz", some "203.0.113.9"⟩

/-- Request carrying all three forwarded headers with *empty* values —
present in the header map, but falsy to Python's `or`. -/
def reqEmptyHeaders : RequestModel :=
  ⟨"GET",
   [("x-forwarded-for", ""), ("x-forwarded-host", ""), ("x-forwarded-proto", ""),
    ("host", "h.example")],
   "h.example", "http", "/", some "198.51.100.7"⟩

/-- Request with no forwarded-for header and `request.client = None`. -/
def reqNoClient : RequestModel :=
  ⟨"GET", [("host", "example.com")], "example.com", "http", "/", none⟩

/-- Request behind a proxy: the three forwarded headers carry values. -/
def reqFwd : RequestModel :=
  ⟨"GET",
   [("x-forwarded-for", "1.2.3.4"), ("x-forwarded-host", "app.example"),
    ("x-forwarded-proto", "https"), ("host", "ip-10-0-0-2")],
   "ip-10-0-0-2", "http", "/", some "10.1.1.1"⟩

/-! ### Helper lemmas -/

theorem imdsGetStep_getIssued (w : ImdsWorld) (hdr : Option String) :
    (imdsGetStep w hdr).getIssued = true := by
  unfold imdsGetStep
  cases w.getOutcome hdr with
  | response s b => by_cases h : s = 200 <;> simp [h]
  | httpError => rfl
  | otherError => rfl

theorem imdsGetStep_tokenHeader (w : ImdsWorld) (hdr : Option String) :
    (imdsGetStep w hdr).tokenHeader = hdr := by
  unfold imdsGetStep
  cases w.getOutcome hdr with
  | response s b => by_cases h : s = 200 <;> simp [h]
  | httpError => rfl
  | otherError => rfl

theorem imdsGetStep_result (w : ImdsWorld) (hdr : Option String) :
    (imdsGetStep w hdr).result =
      (match w.getOutcome hdr with
       | .response s b => if s = 200 then some (pyStrip b) else none
       | _ => none) := by
  unfold imdsGetStep
  cases w.getOutcome hdr with
  | response s b => by_cases h : s = 200 <;> simp [h]
  | httpError => rfl
  | otherError => rfl

/-! ### The claims -/

/-- C2: `imds_get` never raises (it is a total function of its world),
and its return value is exactly what the spec prescribes: the stripped
response body when the metadata GET it observed returned status 200, and
`None` in every other case — non-200 status, any exception of the GET,
or the GET never happening at all. -/
theorem imds_get_matches_spec (w : ImdsWorld) :
    (imds_get w).result = imdsSpecResult w := by
  unfold imdsSpecResult observedGet
  by_cases htok : w.tokenOutcome = .otherError
  · simp [imds_get, htok]
  · simp only [imds_get, htok, if_false, imdsGetStep_getIssued, if_true,
      imdsGetStep_tokenHeader, imdsGetStep_result]
    cases w.getOutcome (imdsTokenHeader w.tokenOutcome) with
    | response s b => by_cases h : s = 200 <;> simp [h]
    | httpError => rfl
    | otherError => rfl

/-- C2 witness: a concrete healthy run — token 200, GET 200 with body
` 203.0.113.77\n` — returns the stripped body. -/
theorem imds_get_matches_spec_witness :
    (imds_get wOkImds).result = imdsSpecResult wOkImds ∧
    (imds_get wOkImds).result = some "203.0.113.77" :=
  ⟨imds_get_matches_spec wOkImds, by decide⟩

/-- C3 counterexample: when the token step fails with an exception that
is not an `httpx.HTTPError`, the outer `except Exception` of line 32
swallows it *before* the GET: `imds_get` returns `None` without issuing
the metadata GET at all (here the GET would have answered
`200 "10.0.0.5"`). -/
theorem imds_get_token_crash_skips_get :
    (imds_get wTokenCrash).getIssued = false ∧
    (imds_get wTokenCrash).result = none ∧
    wTokenCrash.getOutcome none = .response 200 "10.0.0.5" := by
  exact ⟨rfl, rfl, rfl⟩

/-- C3 (amended): a token-step failure *of the kind the code catches*
(`httpx.HTTPError`: network error, timeout) lets the GET proceed with no
token header, and a non-200 token status does too; but a token-step
exception that is not an `httpx.HTTPError` makes the helper return
absence without issuing the GET. -/
theorem imds_get_token_failure (w : ImdsWorld) :
    (w.tokenOutcome = .httpError →
      (imds_get w).getIssued = true ∧ (imds_get w).tokenHeader = none) ∧
    (∀ s b, w.tokenOutcome = .response s b → (imds_get w).getIssued = true) ∧
    (∀ s b, w.tokenOutcome = .response s b → s ≠ 200 →
      (imds_get w).tokenHeader = none) ∧
    (w.tokenOutcome = .otherError →
      (imds_get w).getIssued = false ∧ (imds_get w).result = none) := by
  refine ⟨fun h => ?_, fun s b h => ?_, fun s b h hs => ?_, fun h => ?_⟩
  · simp [imds_get, h, imdsGetStep_getIssued, imdsGetStep_tokenHeader, imdsTokenHeader]
  · simp [imds_get, h, imdsGetStep_getIssued]
  · simp [imds_get, h, imdsGetStep_tokenHeader, imdsTokenHeader, hs]
  · simp [imds_get, h]

/-- C3 witness: with the token call failing as an `httpx.HTTPError`, the
GET is issued and carries no token header. -/
theorem imds_get_token_failure_witness :
    (imds_get wFail).getIssued = true ∧ (imds_get wFail).tokenHeader = none :=
  (imds_get_token_failure wFail).1 rfl

/-- C4: line 80 calls `.astimezone` on a *naive* `utcnow()` value, which
Python interprets in the host's local timezone before converting to
UTC−3.  At the same UTC instant `u = 0`, a host at UTC (offset 0) renders
wall-clock minute −180 — the spec's fixed-offset value — but a host at
UTC+1 (offset 60) renders −240: `server_time_brt` does depend on the
host's local timezone setting, against the claim. -/
theorem server_time_brt_host_tz_dependent :
    server_time_brt_wall 0 0 = -180 ∧
    server_time_brt_wall 0 60 = -240 ∧
    server_time_brt_spec 0 = -180 ∧
    (∀ u : Int, server_time_brt_wall u 0 = server_time_brt_spec u) := by
  refine ⟨rfl, rfl, rfl, fun u => ?_⟩
  unfold server_time_brt_wall server_time_brt_spec
  omega

/-- C1 counterexample: the root handler is registered with
`@app.get("/")`, so a POST request to the root path is answered by the
framework with `405 Method Not Allowed` (FastAPI's JSON detail body),
not with a 200 JSON payload. -/
theorem root_post_is_405 :
    (serve reqPostRoot w0).1 = 405 ∧
    ((serve reqPostRoot w0).1 = 200 → False) ∧
    (serve reqPostRoot w0).2 =
      Body.json (JVal.jobj [("detail", JVal.jstr "Method Not Allowed")]) := by
  refine ⟨rfl, fun h => by simp [serve, reqPostRoot] at h, rfl⟩

/-- C1 (amended): the root endpoint is registered for GET only; a GET
request to the root path yields status 200 with the JSON payload, while
any other method (POST, PUT, HEAD, ...) receives 405. -/
theorem root_get_200_json (req : RequestModel) (w : RootWorld)
    (hp : req.urlPath = "/") (hm : req.method = "GET") :
    serve req w = (200, Body.json (payloadJson (rootPayload req w))) := by
  simp [serve, hp, hm]

/-- C1 witness: the concrete GET request to the root path is served with
status 200 and the JSON payload. -/
theorem root_get_200_json_witness :
    serve reqGetRoot w0 = (200, Body.json (payloadJson (rootPayload reqGetRoot w0))) :=
  root_get_200_json reqGetRoot w0 rfl rfl

/-- C7 counterexample: the liveness handler is registered with
`@app.get("/healthz")`, so a POST request to the liveness path receives
`405 Method Not Allowed` (FastAPI's JSON detail body), not 200 with the
plain text "ok". -/
theorem healthz_post_is_405 :
    (serve reqPostHealthz w0).1 = 405 ∧
    ((serve reqPostHealthz w0).1 = 200 → False) ∧
    (serve reqPostHealthz w0).2 =
      Body.json (JVal.jobj [("detail", JVal.jstr "Method Not Allowed")]) ∧
    ((serve reqPostHealthz w0).2 = Body.text "ok" → False) := by
  refine ⟨rfl, fun h => by simp [serve, reqPostHealthz] at h, rfl, fun h => ?_⟩
  rw [show (serve reqPostHealthz w0).2 =
      Body.json (JVal.jobj [("detail", JVal.jstr "Method Not Allowed")]) from rfl] at h
  exact Body.noConfusion h

/-- C7 (amended): every GET request to the liveness path is answered
with status exactly 200 and body exactly the plain text "ok",
whatever the state of the rest of the world (the handler makes no
external call: the response does not mention the world at all). -/
theorem healthz_get_ok (req : RequestModel) (w : RootWorld)
    (hp : req.urlPath = "/healthz") (hm : req.method = "GET") :
    serve req w = (200, Body.text "ok") := by
  simp [serve, hp, hm]

/-- C7 witness: the concrete GET probe to the liveness path, in a world
where the metadata service is down, is answered `200 "ok"`. -/
theorem healthz_get_ok_witness :
    serve reqGetHealthz w0 = (200, Body.text "ok") :=
  healthz_get_ok reqGetHealthz w0 rfl rfl

/-- C5 counterexample, two concrete requests: (a) a request *carrying*
the forwarded-for header with value `""` gets `ip_cliente` equal to the
peer address, not the header's value; (b) a request with no forwarded-for
header and no peer still has the `ip_cliente` key in the response
object, with value `null` — the key is not absent. -/
theorem ip_cliente_cex :
    headerGet reqEmptyHeaders "x-forwarded-for" = some "" ∧
    (rootPayload reqEmptyHeaders w0).acesso.ip_cliente = some "198.51.100.7" ∧
    ((rootPayload reqEmptyHeaders w0).acesso.ip_cliente = some "" → False) ∧
    headerGet reqNoClient "x-forwarded-for" = none ∧
    reqNoClient.clientHost = none ∧
    jLookup2 (payloadJson (rootPayload reqNoClient w0)) "acesso" "ip_cliente" =
      some JVal.jnull := by
  refine ⟨rfl, rfl, by decide, rfl, rfl, rfl⟩

/-- C5 (amended): `ip_cliente` equals the forwarded-for header's value
when that header is present *and non-empty* (Python's `or` is a
truthiness test); when the header is absent or empty it equals
`request.client.host`, i.e. the peer address when a peer exists and
`None` otherwise; and the `ip_cliente` key is always present in the
response object, serialised as `null` when the value is absent. -/
theorem ip_cliente_rules (req : RequestModel) (w : RootWorld) :
    (∀ v, headerGet req "x-forwarded-for" = some v → v ≠ "" →
      (rootPayload req w).acesso.ip_cliente = some v) ∧
    (headerGet req "x-forwarded-for" = none →
      (rootPayload req w).acesso.ip_cliente = req.clientHost) ∧
    (headerGet req "x-forwarded-for" = some "" →
      (rootPayload req w).acesso.ip_cliente = req.clientHost) ∧
    jLookup2 (payloadJson (rootPayload req w)) "acesso" "ip_cliente" =
      some (optJson (rootPayload req w).acesso.ip_cliente) := by
  refine ⟨fun v h hv => ?_, fun h => ?_, fun h => ?_, rfl⟩
  · show pyOrO (headerGet req "x-forwarded-for") req.clientHost = some v
    rw [h]; simp [pyOrO, hv]
  · show pyOrO (headerGet req "x-forwarded-for") req.clientHost = req.clientHost
    rw [h]; rfl
  · show pyOrO (headerGet req "x-forwarded-for") req.clientHost = req.clientHost
    rw [h]; simp [pyOrO]

/-- C5 witness: with `X-Forwarded-For: 1.2.3.4` present and non-empty,
`ip_cliente` is exactly `1.2.3.4`. -/
theorem ip_cliente_rules_witness :
    (rootPayload reqFwd w0).acesso.ip_cliente = some "1.2.3.4" :=
  (ip_cliente_rules reqFwd w0).1 "1.2.3.4" rfl (by decide)

/-- C6 counterexample: a request carrying `x-forwarded-host` and
`x-forwarded-proto` headers whose values are `""` — the headers are
present, yet `dns_usado` and `esquema` fall back to the Host header and
the URL scheme instead of equalling the headers' (empty) values. -/
theorem dns_esquema_cex :
    headerGet reqEmptyHeaders "x-forwarded-host" = some "" ∧
    (rootPayload reqEmptyHeaders w0).acesso.dns_usado = "h.example" ∧
    ((rootPayload reqEmptyHeaders w0).acesso.dns_usado = "" → False) ∧
    headerGet reqEmptyHeaders "x-forwarded-proto" = some "" ∧
    (rootPayload reqEmptyHeaders w0).acesso.esquema = "http" ∧
    ((rootPayload reqEmptyHeaders w0).acesso.esquema = "" → False) := by
  refine ⟨rfl, rfl, by decide, rfl, rfl, by decide⟩

/-- C6 (amended): `dns_usado` equals the forwarded-host header when that
header is present *and non-empty*; otherwise it falls back to the Host
header when that is non-empty and to the URL's host last.  `esquema`
equals the forwarded-proto header when present and non-empty, otherwise
the raw request's scheme. -/
theorem dns_esquema_rules (req : RequestModel) (w : RootWorld) :
    (∀ v, headerGet req "x-forwarded-host" = some v → v ≠ "" →
      (rootPayload req w).acesso.dns_usado = v) ∧
    ((headerGet req "x-forwarded-host" = none ∨
      headerGet req "x-forwarded-host" = some "") →
      (rootPayload req w).acesso.dns_usado =
        pyOrS (headerGet req "host") req.urlHostname) ∧
    (∀ v, headerGet req "x-forwarded-proto" = some v → v ≠ "" →
      (rootPayload req w).acesso.esquema = v) ∧
    ((headerGet req "x-forwarded-proto" = none ∨
      headerGet req "x-forwarded-proto" = some "") →
      (rootPayload req w).acesso.esquema = req.urlScheme) := by
  refine ⟨fun v h hv => ?_, fun h => ?_, fun v h hv => ?_, fun h => ?_⟩
  · show pyOrS (headerGet req "x-forwarded-host")
        (pyOrS (headerGet req "host") req.urlHostname) = v
    rw [h]; simp [pyOrS, hv]
  · show pyOrS (headerGet req "x-forwarded-host")
        (pyOrS (headerGet req "host") req.urlHostname) =
      pyOrS (headerGet req "host") req.urlHostname
    rcases h with h | h <;> rw [h] <;> simp [pyOrS]
  · show pyOrS (headerGet req "x-forwarded-proto") req.urlScheme = v
    rw [h]; simp [pyOrS, hv]
  · show pyOrS (headerGet req "x-forwarded-proto") req.urlScheme = req.urlScheme
    rcases h with h | h <;> rw [h] <;> simp [pyOrS]

theorem strOrNull_optJson (o : Option String) : strOrNull (optJson o) = true := by
  cases o <;> rfl

/-- Any payload the handler builds serialises to an object of exactly
§6's shape: the only non-constant constructor among the serialised
fields is `ip_cliente`, and that is a string or `null`. -/
theorem schemaCheck_payloadJson (p : Payload) :
    schemaCheck (payloadJson p) = true := by
  show (acessoCheck _ && instanciaCheck _) = true
  show (strOrNull (optJson p.acesso.ip_cliente) && true) = true
  rw [strOrNull_optJson]; rfl

theorem Rat_floor_eq_floor (q : ℚ) : (Rat.floor q : ℤ) = ⌊q⌋ := rfl

theorem roundHalfEven_nonneg (q : ℚ) (h : 0 ≤ q) : 0 ≤ roundHalfEven q := by
  have hf : (0 : ℤ) ≤ Rat.floor q := by
    rw [Rat_floor_eq_floor]
    exact Int.floor_nonneg.mpr h
  unfold roundHalfEven
  dsimp only
  split
  · exact hf
  · split
    · omega
    · split <;> omega

/-- When every GET answer of an `ImdsWorld` is `200 b`, `imds_get`
returns either absence (token crash) or the stripped body. -/
theorem imds_result_of_const200 (w : ImdsWorld) (b : String)
    (hg : ∀ hdr, w.getOutcome hdr = .response 200 b) :
    (imds_get w).result = none ∨ (imds_get w).result = some (pyStrip b) := by
  by_cases htok : w.tokenOutcome = .otherError
  · left; simp [imds_get, htok]
  · right
    simp [imds_get, htok, imdsGetStep_result, hg]

/-- C8: on any request to the root path in which every metadata fetch
yields absence, the assembled payload still serialises to a JSON object
with every key of §6's schema at the documented types, and the
`instancia` fields carry their documented placeholders, the private IP
coming from the local fallback resolver.  (`rootPayload` is a total
function: the handler itself has no failure path.) -/
theorem root_schema_all_absent (req : RequestModel) (w : RootWorld)
    (h1 : (imds_get w.publicIp).result = none)
    (h2 : (imds_get w.localIp).result = none)
    (h3 : (imds_get w.instanceId).result = none)
    (h4 : (imds_get w.az).result = none) :
    schemaCheck (payloadJson (rootPayload req w)) = true ∧
    (rootPayload req w).instancia.ip_publico_vm = "indisponivel" ∧
    (rootPayload req w).instancia.ip_privado_vm = get_private_ip_fallback w.sock ∧
    (rootPayload req w).instancia.instance_id = "desconhecido" ∧
    (rootPayload req w).instancia.availability_zone = "desconhecida" := by
  refine ⟨schemaCheck_payloadJson _, ?_, ?_, ?_, ?_⟩
  · show pyOrS (imds_get w.publicIp).result "indisponivel" = _
    rw [h1]; rfl
  · show pyOrS (imds_get w.localIp).result (get_private_ip_fallback w.sock) = _
    rw [h2]; rfl
  · show pyOrS (imds_get w.instanceId).result "desconhecido" = _
    rw [h3]; rfl
  · show pyOrS (imds_get w.az).result "desconhecida" = _
    rw [h4]; rfl

/-- C8 witness: the concrete GET with the metadata service unreachable
(`w0`): all four placeholders appear, the private IP resolving through
the fallback to the local address. -/
theorem root_schema_all_absent_witness :
    schemaCheck (payloadJson (rootPayload reqGetRoot w0)) = true ∧
    (rootPayload reqGetRoot w0).instancia.ip_publico_vm = "indisponivel" ∧
    (rootPayload reqGetRoot w0).instancia.ip_privado_vm = get_private_ip_fallback w0.sock ∧
    (rootPayload reqGetRoot w0).instancia.instance_id = "desconhecido" ∧
    (rootPayload reqGetRoot w0).instancia.availability_zone = "desconhecida" :=
  root_schema_all_absent reqGetRoot w0 rfl rfl rfl rfl

/-- C9: under the monotonicity of `time.perf_counter` (`t0 ≤ t1`),
`ping_ms` equals the elapsed time in milliseconds rounded to 2 decimal
places, is non-negative, and is an integer multiple of 1/100. -/
theorem ping_ms_spec (req : RequestModel) (w : RootWorld) (h : w.t0 ≤ w.t1) :
    (rootPayload req w).ping_ms = round2 ((w.t1 - w.t0) * 1000) ∧
    0 ≤ (rootPayload req w).ping_ms ∧
    ∃ n : ℤ, (rootPayload req w).ping_ms = (n : ℚ) / 100 := by
  refine ⟨rfl, ?_, ⟨roundHalfEven ((w.t1 - w.t0) * 1000 * 100), rfl⟩⟩
  show 0 ≤ round2 ((w.t1 - w.t0) * 1000)
  unfold round2
  have harg : 0 ≤ (w.t1 - w.t0) * 1000 * 100 := by
    have : (0 : ℚ) ≤ w.t1 - w.t0 := by linarith
    positivity
  have := roundHalfEven_nonneg _ harg
  have hc : (0 : ℚ) ≤ (roundHalfEven ((w.t1 - w.t0) * 1000 * 100) : ℚ) := by
    exact_mod_cast this
  positivity

/-- C9 witness: at `t0 = t1 = 0` (the hypothesis holds), and there the
rounded elapsed time evaluates to 0. -/
theorem ping_ms_spec_witness :
    ((rootPayload reqGetRoot w0).ping_ms = round2 ((w0.t1 - w0.t0) * 1000) ∧
     0 ≤ (rootPayload reqGetRoot w0).ping_ms ∧
     ∃ n : ℤ, (rootPayload reqGetRoot w0).ping_ms = (n : ℚ) / 100) ∧
    round2 ((w0.t1 - w0.t0) * 1000) = 0 := by
  refine ⟨ping_ms_spec reqGetRoot w0 (by decide), ?_⟩
  show round2 ((0 - 0) * 1000) = 0
  norm_num [round2, roundHalfEven, Rat_floor_eq_floor]

/-- C10: a metadata response with status 200 whose body strips to the
empty string is treated exactly like an absent value: the `or` of lines
73–76 is a truthiness test, so `ip_publico_vm` becomes "indisponivel",
`ip_privado_vm` comes from the local fallback resolver, `instance_id`
becomes "desconhecido" and `availability_zone` becomes "desconhecida". -/
theorem imds_empty200_like_absent (req : RequestModel) (w : RootWorld) :
    (∀ b, (∀ hdr, w.publicIp.getOutcome hdr = .response 200 b) → pyStrip b = "" →
      (rootPayload req w).instancia.ip_publico_vm = "indisponivel") ∧
    (∀ b, (∀ hdr, w.localIp.getOutcome hdr = .response 200 b) → pyStrip b = "" →
      (rootPayload req w).instancia.ip_privado_vm = get_private_ip_fallback w.sock) ∧
    (∀ b, (∀ hdr, w.instanceId.getOutcome hdr = .response 200 b) → pyStrip b = "" →
      (rootPayload req w).instancia.instance_id = "desconhecido") ∧
    (∀ b, (∀ hdr, w.az.getOutcome hdr = .response 200 b) → pyStrip b = "" →
      (rootPayload req w).instancia.availability_zone = "desconhecida") := by
  refine ⟨fun b hg hb => ?_, fun b hg hb => ?_, fun b hg hb => ?_, fun b hg hb => ?_⟩
  · show pyOrS (imds_get w.publicIp).result "indisponivel" = _
    rcases imds_result_of_const200 w.publicIp b hg with h | h
    · rw [h]; rfl
    · rw [h, hb]; rfl
  · show pyOrS (imds_get w.localIp).result (get_private_ip_fallback w.sock) = _
    rcases imds_result_of_const200 w.localIp b hg with h | h
    · rw [h]; rfl
    · rw [h, hb]; rfl
  · show pyOrS (imds_get w.instanceId).result "desconhecido" = _
    rcases imds_result_of_const200 w.instanceId b hg with h | h
    · rw [h]; rfl
    · rw [h, hb]; rfl
  · show pyOrS (imds_get w.az).result "desconhecida" = _
    rcases imds_result_of_const200 w.az b hg with h | h
    · rw [h]; rfl
    · rw [h, hb]; rfl

/-- C10 witness: every metadata GET answers `200 "  "` (whitespace-only
body): all four fields take their placeholder/fallback values. -/
theorem imds_empty200_like_absent_witness :
    (rootPayload reqGetRoot wE).instancia.ip_publico_vm = "indisponivel" ∧
    (rootPayload reqGetRoot wE).instancia.ip_privado_vm = get_private_ip_fallback wE.sock ∧
    (rootPayload reqGetRoot wE).instancia.instance_id = "desconhecido" ∧
    (rootPayload reqGetRoot wE).instancia.availability_zone = "desconhecida" :=
  ⟨(imds_empty200_like_absent reqGetRoot wE).1 "  " (fun _ => rfl) (by decide),
   (imds_empty200_like_absent reqGetRoot wE).2.1 "  " (fun _ => rfl) (by decide),
   (imds_empty200_like_absent reqGetRoot wE).2.2.1 "  " (fun _ => rfl) (by decide),
   (imds_empty200_like_absent reqGetRoot wE).2.2.2 "  " (fun _ => rfl) (by decide)⟩

/-- C6 witness: with `X-Forwarded-Host: app.example` and
`X-Forwarded-Proto: https` present and non-empty, the payload reports
them exactly. -/
theorem dns_esquema_rules_witness :
    (rootPayload reqFwd w0).acesso.dns_usado = "app.example" ∧
    (rootPayload reqFwd w0).acesso.esquema = "https" :=
  ⟨(dns_esquema_rules reqFwd w0).1 "app.example" rfl (by decide),
   (dns_esquema_rules reqFwd w0).2.2.1 "https" rfl (by decide)⟩

end Probe
